import Mathlib

/-
Verification development for the Gemini image generator desktop client
(`gemini_image_gen.py`).  The worker thread (`ImageWorker`) and the UI
dispatcher (`GeminiImageGenerator`) are shallowly embedded: external
effects (the remote API, file reads, image decoding, the PIL mock
renderer) are supplied by an `Env` record of fallible functions, and the
worker is a pure function from `Env` and `Worker` to the list of Qt
signals it emits (`Event`) together with the remote calls it issues
(`RemoteCall`).  Dispatcher methods become pure state transformers that
also return the UI effects they perform (error dialogs, worker starts).
-/

namespace GeminiImageGen

/-- Python `x or default` on an optional string: `None` and the empty
string are falsy, so both fall back to the default. -/
def pyOr (o : Option String) (d : String) : String :=
  match o with
  | none => d
  | some s => if s = "" then d else s

/-- The characters removed by Python `str.strip()`. -/
def pyIsSpace (c : Char) : Bool :=
  c = ' ' ∨ c = '\t' ∨ c = '\n' ∨ c = '\r' ∨ c = Char.ofNat 11 ∨ c = Char.ofNat 12

/-- Python `str.strip()`: drop leading and trailing whitespace. -/
def pyStrip (s : String) : String :=
  ⟨((s.data.dropWhile pyIsSpace).reverse.dropWhile pyIsSpace).reverse⟩

/-- Python `str.lower()` (ASCII case fold, which covers the file paths
and literals this program compares). -/
def pyLower (s : String) : String := ⟨s.data.map Char.toLower⟩

/-- Python `str.endswith(suffix)`. -/
def pyEndsWith (s suffix : String) : Bool :=
  List.isPrefixOf suffix.data.reverse s.data.reverse

/-- Python `s[:n]`. -/
def pyTake (s : String) (n : Nat) : String := ⟨s.data.take n⟩

/-- One content part of a "generate content" response; `inline_data`
carries the raw bytes of an inline payload when present. -/
structure Part where
  inline_data : Option (List Nat)
deriving DecidableEq

/-- Model of `response.candidates[i].content`. -/
structure Content where
  parts : List Part
deriving DecidableEq

/-- Model of `response.candidates[i]`. -/
structure Candidate where
  content : Content
deriving DecidableEq

/-- A remote "generate content" response. -/
structure GenResponse where
  candidates : List Candidate
deriving DecidableEq

/-- The worker's operation, as passed to `ImageWorker.__init__`. -/
inductive Operation where
  | generate
  | recognize
deriving DecidableEq

/-- The fields stored by `ImageWorker.__init__`: `data` is the prompt
text (generate) or the image file path (recognize). -/
structure Worker where
  api_key : String
  operation : Operation
  data : String
  model : Option String
  recognition_prompt : Option String
deriving DecidableEq

/-- A Qt signal emitted by the worker; decoded images are abstract byte
lists. -/
inductive Event where
  | progress (n : Nat)
  | image_generated (img : List Nat)
  | image_recognized (text : String)
  | error_occurred (msg : String)
deriving DecidableEq

/-- A remote API invocation made by the worker. -/
inductive RemoteCall where
  | generateContent (model : String) (contents : String)
  | generateFromImage (model : String) (data : List Nat) (mime : String)
      (instruction : String)
deriving DecidableEq

/-- The external world: each field models one fallible external
operation the worker performs (`Except.error` is a raised exception,
carrying `str(e)`). -/
structure Env where
  geminiAvailable : Bool
  clientInit : Except String Unit
  generateContent : String → String → Except String GenResponse
  decodeImage : List Nat → Except String (List Nat)
  readFile : String → Except String (List Nat)
  recognizeContent : String → List Nat → String → String → Except String String
  mockImport : Except String Unit
  mockSetup : Except String Unit
  mockRender : String → Except String (List Nat)

/-- Events and calls produced by a worker sub-routine, plus the message
of an exception that escaped it, if any. -/
structure StepResult where
  events : List Event
  calls : List RemoteCall
  exc : Option String
deriving DecidableEq

/-- Events and calls produced by one full `ImageWorker.run`. -/
structure RunResult where
  events : List Event
  calls : List RemoteCall
deriving DecidableEq

namespace ImageWorker

/-- Default model of `generate_image`: `self.model or "gemini-2.0-flash-preview-image-generation"`. -/
def defaultGenerateModel : String := "gemini-2.0-flash-preview-image-generation"

/-- Default instruction of `recognize_image`:
`self.recognition_prompt or "Describe this image in detail for AI image generation purposes."`. -/
def defaultRecognitionInstruction : String :=
  "Describe this image in detail for AI image generation purposes."

/-- The `for part in parts: if part.inline_data is not None` scan: bytes
of the first part carrying inline data. -/
def firstInline : List Part → Option (List Nat)
  | [] => none
  | p :: rest =>
    match p.inline_data with
    | some d => some d
    | none => firstInline rest

/-- MIME selection in `recognize_image`:
`'image/jpeg' if self.data.lower().endswith('.jpg') or self.data.lower().endswith('.jpeg') else 'image/png'`. -/
def recognizeMime (path : String) : String :=
  if pyEndsWith (pyLower path) ".jpg" ∨ pyEndsWith (pyLower path) ".jpeg" then
    "image/jpeg"
  else
    "image/png"

/-- Embedding of `ImageWorker.generate_image`: emit progress 50, call the remote
generate-content endpoint, emit progress 80, scan `candidates[0]`'s
parts for inline data, decode and emit the image (after progress 100),
or emit the "No image found" failure.  Exceptions (remote call, empty
candidate list, decode) escape via `exc`. -/
def generate_image (env : Env) (w : Worker) : StepResult :=
  let model := pyOr w.model defaultGenerateModel
  let call := RemoteCall.generateContent model w.data
  match env.generateContent model w.data with
  | .error e => ⟨[.progress 50], [call], some e⟩
  | .ok resp =>
    match resp.candidates with
    | [] => ⟨[.progress 50, .progress 80], [call], some ("list index out of range")⟩
    | c :: _ =>
      match firstInline c.content.parts with
      | none =>
        ⟨[.progress 50, .progress 80,
          .error_occurred ("No image found in API response")], [call], none⟩
      | some d =>
        match env.decodeImage d with
        | .error e => ⟨[.progress 50, .progress 80], [call], some e⟩
        | .ok img =>
          ⟨[.progress 50, .progress 80, .progress 100, .image_generated img],
           [call], none⟩

/-- Embedding of `ImageWorker.recognize_image`: emit progress 50, read the image
file, call the remote endpoint with model `gemini-2.5-flash`, the bytes,
the inferred MIME type and the instruction, then emit progress 100 and
the recognized text.  Exceptions (file read, remote call) escape via
`exc`. -/
def recognize_image (env : Env) (w : Worker) : StepResult :=
  match env.readFile w.data with
  | .error e => ⟨[.progress 50], [], some e⟩
  | .ok bytes =>
    let mime := recognizeMime w.data
    let instruction := pyOr w.recognition_prompt defaultRecognitionInstruction
    let call := RemoteCall.generateFromImage ("gemini-2.5-flash") bytes mime instruction
    match env.recognizeContent ("gemini-2.5-flash") bytes mime instruction with
    | .error e => ⟨[.progress 50], [call], some e⟩
    | .ok text => ⟨[.progress 50, .progress 100, .image_recognized text], [call], none⟩

/-- The text drawn on the mock image:
`"Mock Image\n\n" + self.data[:80] + "..."`. -/
def mockText (d : String) : String := "Mock Image\n\n" ++ pyTake d 80 ++ "..."

/-- Embedding of `ImageWorker.generate_mock_image`: PIL import, canvas setup and
rendering may each fail; its own `try/except` converts any exception
into a single "Mock image generation failed" error event, so no
exception escapes. -/
def generate_mock_image (env : Env) (w : Worker) : List Event :=
  match env.mockImport with
  | .error e => [.error_occurred ("Mock image generation failed: " ++ e)]
  | .ok _ =>
    match env.mockSetup with
    | .error e => [.progress 50, .error_occurred ("Mock image generation failed: " ++ e)]
    | .ok _ =>
      match env.mockRender (mockText w.data) with
      | .error e =>
        [.progress 50, .progress 80,
         .error_occurred ("Mock image generation failed: " ++ e)]
      | .ok img => [.progress 50, .progress 80, .progress 100, .image_generated img]

/-- Embedding of `ImageWorker.run`: emit progress 10; without the Gemini SDK fall
back to the mock generator (generate) or a fixed failure (recognize);
otherwise emit progress 30, build the client and dispatch on the
operation.  Any exception raised in the `try` block is converted into a
single `"API Error: ..."` failure event. -/
def run (env : Env) (w : Worker) : RunResult :=
  if env.geminiAvailable = false then
    match w.operation with
    | .generate => ⟨.progress 10 :: generate_mock_image env w, []⟩
    | .recognize =>
      ⟨[.progress 10, .error_occurred ("Image recognition requires Gemini API")], []⟩
  else
    match env.clientInit with
    | .error e => ⟨[.progress 10, .progress 30, .error_occurred ("API Error: " ++ e)], []⟩
    | .ok _ =>
      let r :=
        match w.operation with
        | .generate => generate_image env w
        | .recognize => recognize_image env w
      match r.exc with
      | none => ⟨.progress 10 :: .progress 30 :: r.events, r.calls⟩
      | some e =>
        ⟨.progress 10 :: .progress 30 ::
          (r.events ++ [.error_occurred ("API Error: " ++ e)]), r.calls⟩

end ImageWorker

/-- The progress values of an event stream, in emission order. -/
def progressValues (evs : List Event) : List Nat :=
  evs.filterMap fun e =>
    match e with
    | .progress n => some n
    | _ => none

/-- Terminal events: a success (either kind) or a failure. -/
def isTerminal : Event → Bool
  | .progress _ => false
  | _ => true

/-- Success results: a generated image or a recognized description. -/
def isSuccess : Event → Bool
  | .image_generated _ => true
  | .image_recognized _ => true
  | _ => false

/-- Failure results. -/
def isFailure : Event → Bool
  | .error_occurred _ => true
  | _ => false

/-- A UI effect performed by a dispatcher method: an error dialog
(`show_error`) or the start of a worker thread (`self.worker.start()`). -/
inductive Effect where
  | showError (msg : String)
  | startWorker (w : Worker)
deriving DecidableEq

/-- The dispatcher state held on the main window: text of the API key
field, prompt field, context output, the cached last prompt, the model
combo's current display name, the recognition instruction, the theme
flag, and the display-name → model-id table. -/
structure AppState where
  api_key : String
  prompt : String
  context : String
  last_prompt : String
  selected_model : String
  recognition_prompt : String
  dark_theme : Bool
  models : List (String × String)
deriving DecidableEq

/-- The `self.models` table built in `__init__`. -/
def defaultModels : List (String × String) :=
  [("Gemini 2.0 Flash", "gemini-2.0-flash"),
   ("Gemini 2.0 Flash (Image Gen)", "gemini-2.0-flash-preview-image-generation"),
   ("Gemini 2.0 Flash-Lite", "gemini-2.0-flash-lite"),
   ("Gemini 1.5 Flash", "gemini-1.5-flash"),
   ("Gemini 1.5 Flash-8B", "gemini-1.5-flash-8b"),
   ("Gemini 1.5 Pro", "gemini-1.5-pro"),
   ("Imagen 4", "imagen-4.0-generate-preview-06-06"),
   ("Imagen 4 Ultra", "imagen-4.0-ultra-generate-preview-06-06")]

/-- The default recognition instruction set in `__init__` and used as
the `load_config` fallback. -/
def defaultRecognitionPrompt : String :=
  "Describe this image in detail for AI image generation purposes. Focus on visual elements, style, composition, colors, and mood."

/-- The workers started by a list of effects. -/
def dispatched (effs : List Effect) : List Worker :=
  effs.filterMap fun e =>
    match e with
    | .startWorker w => some w
    | _ => none

namespace GeminiImageGenerator

/-- Embedding of `validate_inputs`: reject an empty (stripped) API key when the
Gemini SDK is available, then an empty (stripped) prompt; each rejection
shows one error dialog. -/
def validate_inputs (geminiAvailable : Bool) (s : AppState) : Bool × List Effect :=
  if pyStrip s.api_key = "" ∧ geminiAvailable = true then
    (false, [.showError ("Enter API key")])
  else if pyStrip s.prompt = "" then
    (false, [.showError ("Enter prompt")])
  else
    (true, [])

/-- Embedding of `start_generation`: look the combo's display name up in the model
table (`dict.get`, `None` when absent) and start a generate worker on
the stripped API key and the cached last prompt. -/
def start_generation (s : AppState) : AppState × List Effect :=
  let selected_model := s.models.lookup s.selected_model
  (s, [.startWorker
        { api_key := pyStrip s.api_key
          operation := .generate
          data := s.last_prompt
          model := selected_model
          recognition_prompt := none }])

/-- Embedding of `generate_image` (the dispatcher method): validate, cache the stripped
prompt as `last_prompt`, and start generation. -/
def generate_image (geminiAvailable : Bool) (s : AppState) : AppState × List Effect :=
  let v := validate_inputs geminiAvailable s
  if v.1 then
    start_generation { s with last_prompt := pyStrip s.prompt }
  else
    (s, v.2)

/-- Embedding of `regenerate_image`: fail on an empty cached prompt, then on an empty
API key when the SDK is available; otherwise start generation with the
cached prompt. -/
def regenerate_image (geminiAvailable : Bool) (s : AppState) : AppState × List Effect :=
  if s.last_prompt = "" then
    (s, [.showError ("No previous prompt")])
  else if pyStrip s.api_key = "" ∧ geminiAvailable = true then
    (s, [.showError ("Enter API key")])
  else
    start_generation s

/-- Embedding of `handle_dropped_file`: start a recognize worker for the dropped
path, with no model argument and the configured recognition
instruction.  No input validation is performed. -/
def handle_dropped_file (s : AppState) (file_path : String) : AppState × List Effect :=
  (s, [.startWorker
        { api_key := pyStrip s.api_key
          operation := .recognize
          data := file_path
          model := none
          recognition_prompt := some s.recognition_prompt }])

/-- Embedding of `use_context`: overwrite the prompt field with the context text, or,
when the current prompt is non-blank, with
`f"{current_prompt}\n\nBased on: {context}"`. -/
def use_context (s : AppState) : AppState :=
  let context := s.context
  let current_prompt := s.prompt
  let combined :=
    if pyStrip current_prompt = "" then context
    else current_prompt ++ "\n\nBased on: " ++ context
  { s with prompt := combined }

end GeminiImageGenerator

/-- The flat JSON preferences record; `none` models an absent key. -/
structure Config where
  api_key : Option String
  dark_theme : Option Bool
  recognition_prompt : Option String
  selected_model : Option String
deriving DecidableEq

namespace GeminiImageGenerator

/-- Embedding of `save_config`: write all four preference fields. -/
def save_config (s : AppState) : Config :=
  { api_key := some s.api_key
    dark_theme := some s.dark_theme
    recognition_prompt := some s.recognition_prompt
    selected_model := some s.selected_model }

/-- Embedding of `load_config`: read each key with its documented default; the saved
model display name is applied to the combo only if it is a key of the
model table. -/
def load_config (c : Config) (s : AppState) : AppState :=
  let selected_model := c.selected_model.getD ("Gemini 2.0 Flash (Image Gen)")
  { s with
    api_key := c.api_key.getD ("")
    dark_theme := c.dark_theme.getD true
    recognition_prompt := c.recognition_prompt.getD defaultRecognitionPrompt
    selected_model :=
      if (s.models.lookup selected_model).isSome then selected_model
      else s.selected_model }

end GeminiImageGenerator

/-! ## Concrete instances used to evaluate the development -/

/-- A fully successful environment: the generate response carries one
candidate whose second part holds the inline payload `[7, 8]`, decoding
is the identity on bytes, the file read returns `[1, 2, 3]` and the
recognize call answers "a red barn". -/
def envGenOk : Env :=
  { geminiAvailable := true
    clientInit := .ok ()
    generateContent := fun _ _ => .ok ⟨[⟨⟨[⟨none⟩, ⟨some [7, 8]⟩]⟩⟩]⟩
    decodeImage := fun bs => .ok bs
    readFile := fun _ => .ok [1, 2, 3]
    recognizeContent := fun _ _ _ _ => .ok ("a red barn")
    mockImport := .ok ()
    mockSetup := .ok ()
    mockRender := fun _ => .ok [9] }

/-- Like `envGenOk` but the generate response has no inline payload. -/
def envGenNone : Env :=
  { envGenOk with generateContent := fun _ _ => .ok ⟨[⟨⟨[⟨none⟩]⟩⟩]⟩ }

/-- A concrete generate worker. -/
def wGen0 : Worker := ⟨"key", .generate, "a cat", some ("gemini-2.0-flash"), none⟩

/-- A concrete recognize worker for an upper-case `.JPG` path. -/
def wRecJPG : Worker := ⟨"key", .recognize, "photo.JPG", none, some ("describe")⟩

/-- A concrete recognize worker for a `.png` path. -/
def wRecPNG : Worker := ⟨"key", .recognize, "photo.png", none, some ("describe")⟩

/-- A dispatcher state that passes validation. -/
def stValid : AppState :=
  ⟨"key", " a cat ", "a red barn", "", "Gemini 2.0 Flash (Image Gen)",
   defaultRecognitionPrompt, true, defaultModels⟩

/-- Variant of `stValid` with an empty API key field. -/
def stEmptyKey : AppState := { stValid with api_key := "" }

/-- Variant of `stValid` with a whitespace-only prompt field. -/
def stEmptyPrompt : AppState := { stValid with prompt := "   " }

/-- Empty API key but a cached last prompt. -/
def stRegen : AppState := { stEmptyKey with last_prompt := "cat" }

/-- Valid inputs and a cached last prompt. -/
def stRegenOk : AppState := { stValid with last_prompt := "cat" }

/-- A blank prompt next to the description "a red barn". -/
def stBarnEmpty : AppState := ⟨"", "  ", "a red barn", "", "", "", true, []⟩

/-- The prompt "cat" next to the description "a red barn". -/
def stBarnCat : AppState := { stBarnEmpty with prompt := "cat" }

/-- The preference values of the round-trip test. -/
def stPrefs : AppState :=
  { stValid with
    api_key := "X"
    dark_theme := false
    recognition_prompt := "Y"
    selected_model := "Gemini 2.0 Flash" }

/-! ## Structural lemmas about the worker's event stream -/

/-- Every complete worker run emits a list of progress events followed by
exactly one terminal event; the progress values are non-decreasing and
bounded by 100. -/
theorem run_events_shape (env : Env) (w : Worker) :
    ∃ (pre : List Nat) (t : Event),
      (ImageWorker.run env w).events = pre.map Event.progress ++ [t] ∧
      isTerminal t = true ∧
      List.Chain' (· ≤ ·) pre ∧ ∀ n ∈ pre, n ≤ 100 := by
  cases hga : env.geminiAvailable with
  | false =>
    cases hop : w.operation with
    | generate =>
      cases him : env.mockImport with
      | error e =>
        refine ⟨[10], .error_occurred ("Mock image generation failed: " ++ e),
          ?_, rfl, by norm_num [List.chain'_cons], by decide⟩
        simp [ImageWorker.run, ImageWorker.generate_mock_image, hga, hop, him]
      | ok u =>
        cases hms : env.mockSetup with
        | error e =>
          refine ⟨[10, 50], .error_occurred ("Mock image generation failed: " ++ e),
            ?_, rfl, by norm_num [List.chain'_cons], by decide⟩
          simp [ImageWorker.run, ImageWorker.generate_mock_image, hga, hop, him, hms]
        | ok v =>
          cases hmr : env.mockRender (ImageWorker.mockText w.data) with
          | error e =>
            refine ⟨[10, 50, 80], .error_occurred ("Mock image generation failed: " ++ e),
              ?_, rfl, by norm_num [List.chain'_cons], by decide⟩
            simp [ImageWorker.run, ImageWorker.generate_mock_image, hga, hop, him, hms, hmr]
          | ok img =>
            refine ⟨[10, 50, 80, 100], .image_generated img, ?_, rfl, by norm_num [List.chain'_cons], by decide⟩
            simp [ImageWorker.run, ImageWorker.generate_mock_image, hga, hop, him, hms, hmr]
    | recognize =>
      refine ⟨[10], .error_occurred ("Image recognition requires Gemini API"),
        ?_, rfl, by norm_num [List.chain'_cons], by decide⟩
      simp [ImageWorker.run, hga, hop]
  | true =>
    cases hci : env.clientInit with
    | error e =>
      refine ⟨[10, 30], .error_occurred ("API Error: " ++ e), ?_, rfl, by norm_num [List.chain'_cons], by decide⟩
      simp [ImageWorker.run, hga, hci]
    | ok u =>
      cases hop : w.operation with
      | generate =>
        cases hresp : env.generateContent (pyOr w.model ImageWorker.defaultGenerateModel) w.data with
        | error e =>
          refine ⟨[10, 30, 50], .error_occurred ("API Error: " ++ e), ?_, rfl, by norm_num [List.chain'_cons], by decide⟩
          simp [ImageWorker.run, ImageWorker.generate_image, hga, hci, hop, hresp]
        | ok resp =>
          cases hcand : resp.candidates with
          | nil =>
            refine ⟨[10, 30, 50, 80], .error_occurred ("API Error: list index out of range"),
              ?_, rfl, by norm_num [List.chain'_cons], by decide⟩
            simp [ImageWorker.run, ImageWorker.generate_image, hga, hci, hop, hresp, hcand]
          | cons c cs =>
            cases hinl : ImageWorker.firstInline c.content.parts with
            | none =>
              refine ⟨[10, 30, 50, 80], .error_occurred ("No image found in API response"),
                ?_, rfl, by norm_num [List.chain'_cons], by decide⟩
              simp [ImageWorker.run, ImageWorker.generate_image, hga, hci, hop, hresp, hcand, hinl]
            | some d =>
              cases hdec : env.decodeImage d with
              | error e =>
                refine ⟨[10, 30, 50, 80], .error_occurred ("API Error: " ++ e),
                  ?_, rfl, by norm_num [List.chain'_cons], by decide⟩
                simp [ImageWorker.run, ImageWorker.generate_image, hga, hci, hop,
                  hresp, hcand, hinl, hdec]
              | ok img =>
                refine ⟨[10, 30, 50, 80, 100], .image_generated img, ?_, rfl, by norm_num [List.chain'_cons], by decide⟩
                simp [ImageWorker.run, ImageWorker.generate_image, hga, hci, hop,
                  hresp, hcand, hinl, hdec]
      | recognize =>
        cases hrd : env.readFile w.data with
        | error e =>
          refine ⟨[10, 30, 50], .error_occurred ("API Error: " ++ e), ?_, rfl, by norm_num [List.chain'_cons], by decide⟩
          simp [ImageWorker.run, ImageWorker.recognize_image, hga, hci, hop, hrd]
        | ok bytes =>
          cases hrc : env.recognizeContent ("gemini-2.5-flash") bytes (ImageWorker.recognizeMime w.data)
              (pyOr w.recognition_prompt ImageWorker.defaultRecognitionInstruction) with
          | error e =>
            refine ⟨[10, 30, 50], .error_occurred ("API Error: " ++ e), ?_, rfl, by norm_num [List.chain'_cons], by decide⟩
            simp [ImageWorker.run, ImageWorker.recognize_image, hga, hci, hop, hrd, hrc]
          | ok text =>
            refine ⟨[10, 30, 50, 100], .image_recognized text, ?_, rfl, by norm_num [List.chain'_cons], by decide⟩
            simp [ImageWorker.run, ImageWorker.recognize_image, hga, hci, hop, hrd, hrc]

/-- The function `progressValues` distributes over append. -/
theorem progressValues_append (l1 l2 : List Event) :
    progressValues (l1 ++ l2) = progressValues l1 ++ progressValues l2 := by
  simp [progressValues]

/-- The progress values of a pure progress stream are its values. -/
theorem progressValues_map_progress (pre : List Nat) :
    progressValues (pre.map Event.progress) = pre := by
  induction pre with
  | nil => rfl
  | cons a l ih =>
    simp only [List.map_cons, progressValues, List.filterMap_cons] at *
    rw [ih]

/-- A terminal event carries no progress value. -/
theorem progressValues_terminal (t : Event) (h : isTerminal t = true) :
    progressValues [t] = [] := by
  cases t <;> simp_all [isTerminal, progressValues]

/-- A pure progress stream contains no terminal event. -/
theorem filter_isTerminal_map_progress (pre : List Nat) :
    (pre.map Event.progress).filter isTerminal = [] := by
  induction pre <;> simp_all [isTerminal]

/-- A pure progress stream contains no success and no failure. -/
theorem filter_success_failure_map_progress (pre : List Nat) :
    (pre.map Event.progress).filter isSuccess = [] ∧
    (pre.map Event.progress).filter isFailure = [] := by
  induction pre <;> simp_all [isSuccess, isFailure]

/-- A terminal event is a success or a failure, never both. -/
theorem terminal_success_xor_failure (t : Event) (h : isTerminal t = true) :
    (isSuccess t = true ∧ isFailure t = false) ∨
    (isSuccess t = false ∧ isFailure t = true) := by
  cases t <;> simp_all [isTerminal, isSuccess, isFailure]

/-! ## Claim theorems -/

/-- C6: for every Request — any operation, any outcome, including
exceptions raised by the remote call, the file read or the decode — the
progress values emitted by the worker are non-decreasing and lie in
0..100, and the event stream ends with exactly one terminal event, which
is one success or one failure, never both and never more than one. -/
theorem C6_progress_monotone_single_terminal (env : Env) (w : Worker) :
    List.Chain' (· ≤ ·) (progressValues (ImageWorker.run env w).events) ∧
    (∀ n ∈ progressValues (ImageWorker.run env w).events, n ≤ 100) ∧
    ((ImageWorker.run env w).events.filter isTerminal).length = 1 ∧
    ((ImageWorker.run env w).events.filter isSuccess).length +
      ((ImageWorker.run env w).events.filter isFailure).length = 1 ∧
    (∃ t, ((ImageWorker.run env w).events).getLast? = some t ∧ isTerminal t = true) := by
  obtain ⟨pre, t, hev, hterm, hchain, hle⟩ := run_events_shape env w
  rw [hev]
  have hpv : progressValues (pre.map Event.progress ++ [t]) = pre := by
    rw [progressValues_append, progressValues_map_progress, progressValues_terminal t hterm,
      List.append_nil]
  refine ⟨by rw [hpv]; exact hchain, by rw [hpv]; exact hle, ?_, ?_, t, ?_, hterm⟩
  · rw [List.filter_append, filter_isTerminal_map_progress, List.nil_append,
      List.filter_cons, if_pos hterm]
    rfl
  · rw [List.filter_append, List.filter_append,
      (filter_success_failure_map_progress pre).1,
      (filter_success_failure_map_progress pre).2, List.nil_append, List.nil_append]
    rcases terminal_success_xor_failure t hterm with ⟨hs, hf⟩ | ⟨hs, hf⟩ <;>
      simp [List.filter_cons, hs, hf]
  · rw [List.getLast?_append_cons]
    rfl

/-- C1: for every Generate Request whose remote response contains at
least one content part with inline binary data (the first such part
holding bytes `d`, which decode to `img`), the worker emits exactly one
success Result equal to that decoded image, emits no failure event, and
the last progress value emitted before the success is 100. -/
theorem C1_generate_inline_success (env : Env) (w : Worker) (resp : GenResponse)
    (c : Candidate) (cs : List Candidate) (d img : List Nat)
    (hga : env.geminiAvailable = true)
    (hop : w.operation = .generate)
    (hci : env.clientInit = .ok ())
    (hresp : env.generateContent (pyOr w.model ImageWorker.defaultGenerateModel) w.data
      = .ok resp)
    (hcand : resp.candidates = c :: cs)
    (hinl : ImageWorker.firstInline c.content.parts = some d)
    (hdec : env.decodeImage d = .ok img) :
    (ImageWorker.run env w).events.filter isSuccess = [Event.image_generated img] ∧
    (ImageWorker.run env w).events.filter isFailure = [] ∧
    (progressValues (ImageWorker.run env w).events).getLast? = some 100 ∧
    (ImageWorker.run env w).events.getLast? = some (Event.image_generated img) := by
  have hev : (ImageWorker.run env w).events =
      [.progress 10, .progress 30, .progress 50, .progress 80, .progress 100,
       .image_generated img] := by
    simp [ImageWorker.run, ImageWorker.generate_image, hga, hop, hci, hresp, hcand, hinl, hdec]
  rw [hev]
  exact ⟨rfl, rfl, rfl, rfl⟩

/-- Witness for C1 at the concrete environment `envGenOk` and worker
`wGen0`. -/
theorem C1_generate_inline_success_witness :
    (ImageWorker.run envGenOk wGen0).events.filter isSuccess
      = [Event.image_generated [7, 8]] ∧
    (ImageWorker.run envGenOk wGen0).events.filter isFailure = [] ∧
    (progressValues (ImageWorker.run envGenOk wGen0).events).getLast? = some 100 ∧
    (ImageWorker.run envGenOk wGen0).events.getLast?
      = some (Event.image_generated [7, 8]) :=
  C1_generate_inline_success envGenOk wGen0 ⟨[⟨⟨[⟨none⟩, ⟨some [7, 8]⟩]⟩⟩]⟩
    ⟨⟨[⟨none⟩, ⟨some [7, 8]⟩]⟩⟩ [] [7, 8] [7, 8] rfl rfl rfl rfl rfl rfl rfl

/-- C2: for every Generate Request whose remote response contains zero
content parts with inline binary data, the worker emits exactly one
failure Result and zero success Results. -/
theorem C2_generate_no_inline (env : Env) (w : Worker) (resp : GenResponse)
    (hga : env.geminiAvailable = true)
    (hop : w.operation = .generate)
    (hci : env.clientInit = .ok ())
    (hresp : env.generateContent (pyOr w.model ImageWorker.defaultGenerateModel) w.data
      = .ok resp)
    (hnone : ∀ c ∈ resp.candidates, ImageWorker.firstInline c.content.parts = none) :
    ((ImageWorker.run env w).events.filter isFailure).length = 1 ∧
    (ImageWorker.run env w).events.filter isSuccess = [] := by
  cases hcand : resp.candidates with
  | nil =>
    have hev : (ImageWorker.run env w).events =
        [.progress 10, .progress 30, .progress 50, .progress 80,
         .error_occurred ("API Error: list index out of range")] := by
      simp [ImageWorker.run, ImageWorker.generate_image, hga, hop, hci, hresp, hcand]
    rw [hev]
    exact ⟨rfl, rfl⟩
  | cons c cs =>
    have hinl : ImageWorker.firstInline c.content.parts = none :=
      hnone c (by rw [hcand]; exact List.mem_cons_self c cs)
    have hev : (ImageWorker.run env w).events =
        [.progress 10, .progress 30, .progress 50, .progress 80,
         .error_occurred ("No image found in API response")] := by
      simp [ImageWorker.run, ImageWorker.generate_image, hga, hop, hci, hresp, hcand, hinl]
    rw [hev]
    exact ⟨rfl, rfl⟩

/-- Witness for C2 at the concrete environment `envGenNone` and worker
`wGen0`. -/
theorem C2_generate_no_inline_witness :
    ((ImageWorker.run envGenNone wGen0).events.filter isFailure).length = 1 ∧
    (ImageWorker.run envGenNone wGen0).events.filter isSuccess = [] :=
  C2_generate_no_inline envGenNone wGen0 ⟨[⟨⟨[⟨none⟩]⟩⟩]⟩ rfl rfl rfl rfl (by decide)

/-- Shared helper: a failing validation (empty credential while the SDK
is available, or empty prompt) makes `generate_image` start no worker
and show one validation error dialog. -/
theorem generate_image_validation_no_dispatch (ga : Bool) (s : AppState)
    (h : (pyStrip s.api_key = "" ∧ ga = true) ∨ pyStrip s.prompt = "") :
    dispatched (GeminiImageGenerator.generate_image ga s).2 = [] ∧
    ∃ msg, Effect.showError msg ∈ (GeminiImageGenerator.generate_image ga s).2 := by
  have hval : (GeminiImageGenerator.validate_inputs ga s).1 = false ∧
      ∃ msg, (GeminiImageGenerator.validate_inputs ga s).2 = [Effect.showError msg] := by
    unfold GeminiImageGenerator.validate_inputs
    by_cases h1 : pyStrip s.api_key = "" ∧ ga = true
    · rw [if_pos h1]
      exact ⟨rfl, "Enter API key", rfl⟩
    · rcases h with h | hp
      · exact absurd h h1
      · rw [if_neg h1, if_pos hp]
        exact ⟨rfl, "Enter prompt", rfl⟩
  obtain ⟨hf, msg, hmsg⟩ := hval
  have hout : GeminiImageGenerator.generate_image ga s
      = (s, (GeminiImageGenerator.validate_inputs ga s).2) := by
    simp only [GeminiImageGenerator.generate_image, hf, Bool.false_eq_true, if_false]
  rw [hout, hmsg]
  exact ⟨rfl, msg, List.mem_cons_self _ _⟩

/-- C3: every `generate_image` submission whose credential is empty
while the SDK is available, or whose prompt is empty, starts no worker
and shows a validation error dialog. -/
theorem C3_submit_generate_validation (ga : Bool) (s : AppState)
    (h : (pyStrip s.api_key = "" ∧ ga = true) ∨ pyStrip s.prompt = "") :
    dispatched (GeminiImageGenerator.generate_image ga s).2 = [] ∧
    ∃ msg, Effect.showError msg ∈ (GeminiImageGenerator.generate_image ga s).2 :=
  generate_image_validation_no_dispatch ga s h

/-- Witness for C3 at `stEmptyKey` with the SDK available. -/
theorem C3_submit_generate_validation_witness :
    dispatched (GeminiImageGenerator.generate_image true stEmptyKey).2 = [] ∧
    ∃ msg, Effect.showError msg ∈ (GeminiImageGenerator.generate_image true stEmptyKey).2 :=
  C3_submit_generate_validation true stEmptyKey (Or.inl ⟨rfl, rfl⟩)

/-- C4 counterexample: a recognize submission (`handle_dropped_file`)
with an empty credential starts a worker anyway — the method performs no
credential validation, whether or not a real backend is configured. -/
theorem C4_counterexample :
    pyStrip stEmptyKey.api_key = "" ∧
    dispatched (GeminiImageGenerator.handle_dropped_file stEmptyKey ("photo.png")).2
      = [⟨"", .recognize, "photo.png", none, some defaultRecognitionPrompt⟩] :=
  ⟨rfl, rfl⟩

/-- C4 amended: generate and regenerate submissions with a missing
credential and a real backend are caught before dispatch (no worker is
started and an error dialog is shown), but a recognize submission
always starts exactly one worker, regardless of credential. -/
theorem C4_amended_validation_before_dispatch (s : AppState) (path : String)
    (hkey : pyStrip s.api_key = "") :
    dispatched (GeminiImageGenerator.generate_image true s).2 = [] ∧
    (∃ msg, Effect.showError msg ∈ (GeminiImageGenerator.generate_image true s).2) ∧
    dispatched (GeminiImageGenerator.regenerate_image true s).2 = [] ∧
    (∃ msg, Effect.showError msg ∈ (GeminiImageGenerator.regenerate_image true s).2) ∧
    (dispatched (GeminiImageGenerator.handle_dropped_file s path).2).length = 1 := by
  obtain ⟨hgen, hmsg⟩ := generate_image_validation_no_dispatch true s (Or.inl ⟨hkey, rfl⟩)
  have hre : (GeminiImageGenerator.regenerate_image true s).2
      = [Effect.showError ("No previous prompt")] ∨
      (GeminiImageGenerator.regenerate_image true s).2
      = [Effect.showError ("Enter API key")] := by
    unfold GeminiImageGenerator.regenerate_image
    by_cases hl : s.last_prompt = ""
    · rw [if_pos hl]
      exact Or.inl rfl
    · rw [if_neg hl, if_pos ⟨hkey, rfl⟩]
      exact Or.inr rfl
  refine ⟨hgen, hmsg, ?_, ?_, rfl⟩
  · rcases hre with hre | hre <;> rw [hre] <;> rfl
  · rcases hre with hre | hre <;> rw [hre]
    · exact ⟨"No previous prompt", List.mem_cons_self _ _⟩
    · exact ⟨"Enter API key", List.mem_cons_self _ _⟩

/-- Witness for the amended C4 at `stEmptyKey` and the path
"photo.png". -/
theorem C4_amended_validation_before_dispatch_witness :
    dispatched (GeminiImageGenerator.generate_image true stEmptyKey).2 = [] ∧
    (∃ msg, Effect.showError msg ∈ (GeminiImageGenerator.generate_image true stEmptyKey).2) ∧
    dispatched (GeminiImageGenerator.regenerate_image true stEmptyKey).2 = [] ∧
    (∃ msg, Effect.showError msg ∈ (GeminiImageGenerator.regenerate_image true stEmptyKey).2) ∧
    (dispatched (GeminiImageGenerator.handle_dropped_file stEmptyKey ("photo.png")).2).length = 1 :=
  C4_amended_validation_before_dispatch stEmptyKey ("photo.png") rfl

/-- C5 counterexample: with a cached last prompt but an empty credential
and a real backend, `regenerate_image` starts no worker — it shows the
"Enter API key" dialog instead of dispatching, so "otherwise it
dispatches a Generate Request" fails. -/
theorem C5_counterexample :
    stRegen.last_prompt ≠ "" ∧
    (GeminiImageGenerator.regenerate_image true stRegen).2 = [Effect.showError ("Enter API key")] ∧
    dispatched (GeminiImageGenerator.regenerate_image true stRegen).2 = [] := by
  refine ⟨by decide, rfl, rfl⟩

/-- C5 amended: `regenerate_image` with an empty cached prompt fails
with "No previous prompt" and starts no worker; with a cached prompt it
dispatches one Generate Request reusing that prompt, provided the
credential gate (non-empty credential, or no real backend) also
passes. -/
theorem C5_regenerate_gating (ga : Bool) (s : AppState) :
    (s.last_prompt = "" →
      (GeminiImageGenerator.regenerate_image ga s).2 = [Effect.showError ("No previous prompt")] ∧
      dispatched (GeminiImageGenerator.regenerate_image ga s).2 = []) ∧
    (s.last_prompt ≠ "" → ¬(pyStrip s.api_key = "" ∧ ga = true) →
      dispatched (GeminiImageGenerator.regenerate_image ga s).2 =
        [{ api_key := pyStrip s.api_key
           operation := .generate
           data := s.last_prompt
           model := s.models.lookup s.selected_model
           recognition_prompt := none }]) := by
  constructor
  · intro h
    unfold GeminiImageGenerator.regenerate_image
    rw [if_pos h]
    exact ⟨rfl, rfl⟩
  · intro h1 h2
    unfold GeminiImageGenerator.regenerate_image GeminiImageGenerator.start_generation
    rw [if_neg h1, if_neg h2]
    rfl

/-- Witness for the amended C5 at `stRegenOk`. -/
theorem C5_regenerate_gating_witness :
    dispatched (GeminiImageGenerator.regenerate_image true stRegenOk).2 =
      [{ api_key := pyStrip stRegenOk.api_key
         operation := .generate
         data := stRegenOk.last_prompt
         model := stRegenOk.models.lookup stRegenOk.selected_model
         recognition_prompt := none }] :=
  (C5_regenerate_gating true stRegenOk).2 (by decide) (by decide)

/-- C7: for every Recognize Request whose file read succeeds, every
remote call the worker makes carries MIME type `recognizeMime` of the
path, which is image/jpeg exactly when the lower-cased path ends with
".jpg" or ".jpeg" (a case-insensitive extension match) and image/png for
every other path; in particular "photo.JPG" yields image/jpeg and
"photo.png" yields image/png. -/
theorem C7_recognize_mime (env : Env) (w : Worker) (bytes : List Nat)
    (hop : w.operation = .recognize)
    (hread : env.readFile w.data = .ok bytes) :
    (∀ call ∈ (ImageWorker.run env w).calls,
      call = RemoteCall.generateFromImage ("gemini-2.5-flash") bytes
        (ImageWorker.recognizeMime w.data)
        (pyOr w.recognition_prompt ImageWorker.defaultRecognitionInstruction)) ∧
    (ImageWorker.recognizeMime w.data = "image/jpeg" ↔
      (pyEndsWith (pyLower w.data) ".jpg" = true ∨
       pyEndsWith (pyLower w.data) ".jpeg" = true)) ∧
    (¬(pyEndsWith (pyLower w.data) ".jpg" = true ∨
       pyEndsWith (pyLower w.data) ".jpeg" = true) →
      ImageWorker.recognizeMime w.data = "image/png") ∧
    ImageWorker.recognizeMime ("photo.JPG") = "image/jpeg" ∧
    ImageWorker.recognizeMime ("photo.png") = "image/png" := by
  refine ⟨?_, ?_, ?_, by decide, by decide⟩
  · intro call hcall
    cases hga : env.geminiAvailable with
    | false =>
      cases hopv : w.operation <;>
        simp [ImageWorker.run, hga, hopv] at hcall
    | true =>
      cases hci : env.clientInit with
      | error e => simp [ImageWorker.run, hga, hci] at hcall
      | ok u =>
        cases hrc : env.recognizeContent ("gemini-2.5-flash") bytes
            (ImageWorker.recognizeMime w.data)
            (pyOr w.recognition_prompt ImageWorker.defaultRecognitionInstruction) with
        | error e =>
          simp [ImageWorker.run, ImageWorker.recognize_image, hga, hci, hop, hread, hrc] at hcall
          exact hcall
        | ok text =>
          simp [ImageWorker.run, ImageWorker.recognize_image, hga, hci, hop, hread, hrc] at hcall
          exact hcall
  · by_cases h : (pyEndsWith (pyLower w.data) ".jpg" = true ∨
        pyEndsWith (pyLower w.data) ".jpeg" = true)
    · unfold ImageWorker.recognizeMime
      rw [if_pos h]
      exact ⟨fun _ => h, fun _ => rfl⟩
    · unfold ImageWorker.recognizeMime
      rw [if_neg h]
      exact ⟨fun hx => absurd hx (by decide), fun hx => absurd hx h⟩
  · intro h
    unfold ImageWorker.recognizeMime
    rw [if_neg h]

/-- Witness for C7 at `envGenOk` and the recognize worker for
"photo.JPG". -/
theorem C7_recognize_mime_witness :
    (∀ call ∈ (ImageWorker.run envGenOk wRecJPG).calls,
      call = RemoteCall.generateFromImage ("gemini-2.5-flash") [1, 2, 3]
        (ImageWorker.recognizeMime wRecJPG.data)
        (pyOr wRecJPG.recognition_prompt ImageWorker.defaultRecognitionInstruction)) ∧
    (ImageWorker.recognizeMime wRecJPG.data = "image/jpeg" ↔
      (pyEndsWith (pyLower wRecJPG.data) ".jpg" = true ∨
       pyEndsWith (pyLower wRecJPG.data) ".jpeg" = true)) ∧
    (¬(pyEndsWith (pyLower wRecJPG.data) ".jpg" = true ∨
       pyEndsWith (pyLower wRecJPG.data) ".jpeg" = true) →
      ImageWorker.recognizeMime wRecJPG.data = "image/png") ∧
    ImageWorker.recognizeMime ("photo.JPG") = "image/jpeg" ∧
    ImageWorker.recognizeMime ("photo.png") = "image/png" :=
  C7_recognize_mime envGenOk wRecJPG [1, 2, 3] rfl rfl

/-- C8: "use context" is pure string composition on the prompt field —
with a blank (empty or whitespace-only) prompt the field becomes exactly
the description text, otherwise the current prompt, a blank line,
"Based on: " and the description; the other state fields are
untouched and no worker is started. -/
theorem C8_use_context_composition (s : AppState) :
    (pyStrip s.prompt = "" → (GeminiImageGenerator.use_context s).prompt = s.context) ∧
    (pyStrip s.prompt ≠ "" →
      (GeminiImageGenerator.use_context s).prompt
        = s.prompt ++ "\n\nBased on: " ++ s.context) ∧
    (GeminiImageGenerator.use_context s).api_key = s.api_key ∧
    (GeminiImageGenerator.use_context s).context = s.context ∧
    (GeminiImageGenerator.use_context s).last_prompt = s.last_prompt := by
  by_cases h : pyStrip s.prompt = "" <;>
    simp [GeminiImageGenerator.use_context, h]

/-- Witness for C8: description "a red barn" with a blank prompt and
with the prompt "cat". -/
theorem C8_use_context_composition_witness :
    (GeminiImageGenerator.use_context stBarnEmpty).prompt = "a red barn" ∧
    (GeminiImageGenerator.use_context stBarnCat).prompt = "cat\n\nBased on: a red barn" :=
  ⟨(C8_use_context_composition stBarnEmpty).1 (by decide),
   by rw [(C8_use_context_composition stBarnCat).2.1 (by decide)]; rfl⟩

/-- C9: preference persistence round-trips: loading a saved
configuration into a state whose model table contains the saved display
name reproduces all four fields exactly. -/
theorem C9_config_roundtrip (s t : AppState)
    (hmodel : (t.models.lookup s.selected_model).isSome = true) :
    (GeminiImageGenerator.load_config (GeminiImageGenerator.save_config s) t).api_key
      = s.api_key ∧
    (GeminiImageGenerator.load_config (GeminiImageGenerator.save_config s) t).dark_theme
      = s.dark_theme ∧
    (GeminiImageGenerator.load_config (GeminiImageGenerator.save_config s) t).recognition_prompt
      = s.recognition_prompt ∧
    (GeminiImageGenerator.load_config (GeminiImageGenerator.save_config s) t).selected_model
      = s.selected_model := by
  simp [GeminiImageGenerator.save_config, GeminiImageGenerator.load_config, hmodel]

/-- Witness for C9 at the claimed preference values: api_key "X", dark
theme off, recognition prompt "Y", model "Gemini 2.0 Flash". -/
theorem C9_config_roundtrip_witness :
    (GeminiImageGenerator.load_config (GeminiImageGenerator.save_config stPrefs) stValid).api_key
      = "X" ∧
    (GeminiImageGenerator.load_config (GeminiImageGenerator.save_config stPrefs) stValid).dark_theme
      = false ∧
    (GeminiImageGenerator.load_config (GeminiImageGenerator.save_config stPrefs) stValid).recognition_prompt
      = "Y" ∧
    (GeminiImageGenerator.load_config (GeminiImageGenerator.save_config stPrefs) stValid).selected_model
      = "Gemini 2.0 Flash" :=
  C9_config_roundtrip stPrefs stValid (by decide)

/-- C10: recognize requests are pinned to the backend model
"gemini-2.5-flash": `handle_dropped_file` builds its worker with no
model argument, every remote call of a recognize run names
"gemini-2.5-flash", and a recognize run is unchanged under any value of
the worker's `model` field — the selected model influences only
Generate Requests. -/
theorem C10_recognize_fixed_model (s : AppState) (path : String)
    (env : Env) (w : Worker) (m : Option String)
    (hop : w.operation = .recognize) :
    (∀ w2 ∈ dispatched (GeminiImageGenerator.handle_dropped_file s path).2,
      w2.model = none ∧ w2.operation = .recognize) ∧
    (∀ call ∈ (ImageWorker.run env w).calls,
      ∃ b mi instruction,
        call = RemoteCall.generateFromImage ("gemini-2.5-flash") b mi instruction) ∧
    ImageWorker.run env { w with model := m } = ImageWorker.run env w := by
  obtain ⟨ak, op, data, mdl, rp⟩ := w
  cases op with
  | generate => simp at hop
  | recognize =>
    refine ⟨?_, ?_, rfl⟩
    · intro w2 h2
      simp [GeminiImageGenerator.handle_dropped_file, dispatched] at h2
      subst h2
      exact ⟨rfl, rfl⟩
    · intro call hcall
      cases hga : env.geminiAvailable with
      | false => simp [ImageWorker.run, hga] at hcall
      | true =>
        cases hci : env.clientInit with
        | error e => simp [ImageWorker.run, hga, hci] at hcall
        | ok u =>
          cases hrd : env.readFile data with
          | error e =>
            simp [ImageWorker.run, ImageWorker.recognize_image, hga, hci, hrd] at hcall
          | ok bytes =>
            cases hrc : env.recognizeContent ("gemini-2.5-flash") bytes
                (ImageWorker.recognizeMime data)
                (pyOr rp ImageWorker.defaultRecognitionInstruction) with
            | error e =>
              simp [ImageWorker.run, ImageWorker.recognize_image, hga, hci, hrd, hrc] at hcall
              exact ⟨bytes, _, _, hcall⟩
            | ok text =>
              simp [ImageWorker.run, ImageWorker.recognize_image, hga, hci, hrd, hrc] at hcall
              exact ⟨bytes, _, _, hcall⟩

/-- Witness for C10 at `stValid`, the path "photo.png", `envGenOk` and
the recognize worker `wRecPNG` with an overriding model value. -/
theorem C10_recognize_fixed_model_witness :
    (∀ w2 ∈ dispatched (GeminiImageGenerator.handle_dropped_file stValid ("photo.png")).2,
      w2.model = none ∧ w2.operation = .recognize) ∧
    (∀ call ∈ (ImageWorker.run envGenOk wRecPNG).calls,
      ∃ b mi instruction,
        call = RemoteCall.generateFromImage ("gemini-2.5-flash") b mi instruction) ∧
    ImageWorker.run envGenOk { wRecPNG with model := some ("gemini-1.5-pro") }
      = ImageWorker.run envGenOk wRecPNG :=
  C10_recognize_fixed_model stValid ("photo.png") envGenOk wRecPNG (some ("gemini-1.5-pro")) rfl

end GeminiImageGen
